import Mathlib

/-
Verification of the AWS auto-tagger Lambda (src/Exercise-2/lambda_function.py)
against its natural-language specification.

Modelling conventions:
- Python dicts of tags are association lists (`Tags`); `dlookup` is dict lookup
  (first matching key wins, mirroring unique-key Python dicts) and `dictUpdate`
  is `dict.update` / `{**a, **b}` (right operand wins, left operand's key order
  kept, fresh keys appended).
- The CloudWatch event is a typed tree of `Option` fields mirroring exactly the
  keys the source reads; an absent key is `none`, matching `dict.get`.
- AWS API calls are oracles (`Aws`): each boto3 call the source makes is a field
  returning `Except String _` (`.error` models a raised `ClientError` with its
  message).  Every function returns, next to its result, the list of API calls
  it attempted (`TagCall`), so that "which resources were attempted / tagged"
  is observable.  A raised exception is a propagated `Except.error`.
-/

namespace AutoTagger

/-- A Python tag dictionary: association list from tag key to tag value. -/
abbrev Tags := List (String × String)

/-- Python dict lookup: first entry with the key (keys are unique in dicts built
by the source, so this is exact). -/
def dlookup (k : String) : Tags → Option String
  | [] => none
  | (k', v) :: rest => if k = k' then some v else dlookup k rest

/-- Python `a.update(b)` / `{**a, **b}`: keys of `a` keep their position but take
`b`'s value when `b` has the key; keys only in `b` are appended. -/
def dictUpdate (a b : Tags) : Tags :=
  a.map (fun p => (p.1, (dlookup p.1 b).getD p.2)) ++
  b.filter (fun q => (dlookup q.1 a).isNone)

/-
Event data model: typed tree of `Option` fields covering exactly the keys the
source reads with `dict.get`.  An absent key is `none`.
-/

/-- `userIdentity.sessionContext.sessionIssuer` sub-object. -/
structure SessionIssuer where
  userName : Option String
deriving DecidableEq

/-- `userIdentity.sessionContext` sub-object. -/
structure SessionContext where
  sessionIssuer : Option SessionIssuer
deriving DecidableEq

/-- `detail.userIdentity` sub-object. -/
structure UserIdentity where
  type : Option String
  arn : Option String
  accountId : Option String
  userName : Option String
  sessionContext : Option SessionContext
deriving DecidableEq

def UserIdentity.empty : UserIdentity := ⟨none, none, none, none, none⟩

/-- One entry of `responseElements.instancesSet.items`. -/
structure Ec2Instance where
  instanceId : Option String
deriving DecidableEq

/-- `responseElements.instancesSet` sub-object. -/
structure InstancesSet where
  items : Option (List Ec2Instance)
deriving DecidableEq

def InstancesSet.empty : InstancesSet := ⟨none⟩

/-- `responseElements.vpc` sub-object. -/
structure Vpc where
  vpcId : Option String
deriving DecidableEq

def Vpc.empty : Vpc := ⟨none⟩

/-- `responseElements.subnet` sub-object. -/
structure Subnet where
  subnetId : Option String
deriving DecidableEq

def Subnet.empty : Subnet := ⟨none⟩

/-- `responseElements.tableDescription` sub-object. -/
structure TableDescription where
  tableName : Option String
deriving DecidableEq

def TableDescription.empty : TableDescription := ⟨none⟩

/-- `detail.responseElements` sub-object.  `otherKeys` records whether the raw
dict carries keys beyond the modelled ones, so Python dict truthiness
(`if response_elements:`) stays faithful. -/
structure ResponseElements where
  instancesSet : Option InstancesSet
  volumeId : Option String
  groupId : Option String
  dBInstanceArn : Option String
  dBClusterArn : Option String
  functionName : Option String
  tableDescription : Option TableDescription
  vpc : Option Vpc
  subnet : Option Subnet
  otherKeys : Bool
deriving DecidableEq

def ResponseElements.empty : ResponseElements :=
  ⟨none, none, none, none, none, none, none, none, none, false⟩

/-- Python truthiness of the `responseElements` dict: non-empty. -/
def ResponseElements.isTruthy (re : ResponseElements) : Bool :=
  re.instancesSet.isSome || re.volumeId.isSome || re.groupId.isSome ||
  re.dBInstanceArn.isSome || re.dBClusterArn.isSome || re.functionName.isSome ||
  re.tableDescription.isSome || re.vpc.isSome || re.subnet.isSome || re.otherKeys

/-- `detail.requestParameters` sub-object. -/
structure RequestParameters where
  bucketName : Option String
deriving DecidableEq

def RequestParameters.empty : RequestParameters := ⟨none⟩

/-- `event.detail` sub-object. -/
structure Detail where
  eventName : Option String
  eventSource : Option String
  awsRegion : Option String
  eventTime : Option String
  userIdentity : Option UserIdentity
  requestParameters : Option RequestParameters
  responseElements : Option ResponseElements
deriving DecidableEq

def Detail.empty : Detail := ⟨none, none, none, none, none, none, none⟩

/-- The CloudWatch event handed to the dispatcher. -/
structure Event where
  detail : Option Detail
deriving DecidableEq

/-- Python string truthiness of an optional string: `None` and `""` are falsy.
Mirrors guards like `if instance_id:` in the source. -/
def truthyStr : Option String → Option String
  | some s => if s = "" then none else some s
  | none => none

/-
Identity extraction (`get_user_identity`, lambda_function.py lines 83-117).
`now` stands for `datetime.utcnow().isoformat() + 'Z'`, the wall-clock
timestamp of the dispatch, passed in explicitly.
-/

/-- The identity dict built by `get_user_identity`: always all five keys. -/
structure IdentityInfo where
  CreatedBy : String
  CreatedByUser : String
  CreatedByType : String
  CreatedByAccountId : String
  CreatedAt : String
deriving DecidableEq

/-- The identity dict in the source's key order. -/
def IdentityInfo.toTags (i : IdentityInfo) : Tags :=
  [("CreatedBy", i.CreatedBy), ("CreatedByUser", i.CreatedByUser),
   ("CreatedByType", i.CreatedByType), ("CreatedByAccountId", i.CreatedByAccountId),
   ("CreatedAt", i.CreatedAt)]

/-- Helper for `pySplit`: walk the characters, cutting at each separator. -/
def pySplitAux (sep : Char) : List Char → List Char → List String
  | [], acc => [String.mk acc.reverse]
  | c :: cs, acc =>
    if c = sep then String.mk acc.reverse :: pySplitAux sep cs []
    else pySplitAux sep cs (c :: acc)

/-- Python `s.split(sep)` for a one-character separator. -/
def pySplit (s : String) (sep : Char) : List String :=
  pySplitAux sep s.data []

/-- Python `c in s` for a one-character needle. -/
def pyContains (s : String) (c : Char) : Bool :=
  s.data.any (fun x => x = c)

/-- Helper for `pyStartsWith`: first argument is the candidate head. -/
def startsWithAux : List Char → List Char → Bool
  | [], _ => true
  | _ :: _, [] => false
  | x :: xs, y :: ys => if x = y then startsWithAux xs ys else false

/-- Python `s.startswith(t)`. -/
def pyStartsWith (s t : String) : Bool :=
  startsWithAux t.data s.data

/-- `arn_parts = arn.split('/'); arn_parts[-1] if arn_parts else 'unknown'`. -/
def lastArnSegment (arn : String) : String :=
  match (pySplit arn '/').getLast? with
  | some s => s
  | none => "unknown"

/-- Embedding of `get_user_identity` (lines 83-117). -/
def get_user_identity (now : String) (event : Event) : IdentityInfo :=
  let detail := event.detail.getD Detail.empty
  let user_identity := detail.userIdentity.getD UserIdentity.empty
  let createdBy := user_identity.arn.getD "unknown"
  let createdByUser :=
    if user_identity.type = some "IAMUser" then
      user_identity.userName.getD "unknown"
    else if user_identity.type = some "AssumedRole" then
      match truthyStr ((user_identity.sessionContext.bind
          SessionContext.sessionIssuer).bind SessionIssuer.userName) with
      | some session_name => session_name
      | none => lastArnSegment createdBy
    else if user_identity.type = some "Root" then "root"
    else "unknown"
  { CreatedBy := createdBy
    CreatedByUser := createdByUser
    CreatedByType := user_identity.type.getD "unknown"
    CreatedByAccountId := user_identity.accountId.getD "unknown"
    CreatedAt := detail.eventTime.getD now }

/-
AWS API oracles and tag applicators (lines 120-248).  A `.error msg` outcome
models a raised `ClientError` whose `str(e)` is `msg`.
-/

/-- Outcome of `s3.get_bucket_tagging`: a tag set, the `NoSuchTagSet`
not-found condition, or another raised client error. -/
inductive S3GetTagging
  | tagSet (tags : Tags)
  | noSuchTagSet
  | otherError (msg : String)
deriving DecidableEq

/-- The external AWS API surface the tagger touches, as response oracles. -/
structure Aws where
  ec2CreateTags : String → Except String Unit
  s3GetBucketTagging : String → S3GetTagging
  s3PutBucketTagging : String → Tags → Except String Unit
  rdsAddTagsToResource : String → Except String Unit
  lambdaGetFunction : String → Except String String
  lambdaTagResource : String → Except String Unit
  dynamodbDescribeTable : String → Except String String
  dynamodbTagResource : String → Except String Unit

/-- Trace of one attempted AWS API call, with the arguments the source passes. -/
inductive TagCall
  | ec2CreateTags (resourceId resourceType : String) (tags : Tags) (region : String)
  | s3GetBucketTagging (bucket region : String)
  | s3PutBucketTagging (bucket : String) (tagSet : Tags) (region : String)
  | rdsAddTagsToResource (resourceArn : String) (tags : Tags) (region : String)
  | lambdaGetFunction (functionName region : String)
  | lambdaTagResource (functionArn : String) (tags : Tags) (region : String)
  | dynamodbDescribeTable (tableName region : String)
  | dynamodbTagResource (tableArn : String) (tags : Tags) (region : String)
deriving DecidableEq

/-- Embedding of `tag_ec2_resource` (lines 120-139): one `create_tags` call,
re-raising any client error. -/
def tag_ec2_resource (aws : Aws) (resource_id resource_type : String) (tags : Tags)
    (region : String) : Except String Unit × List TagCall :=
  (aws.ec2CreateTags resource_id,
   [.ec2CreateTags resource_id resource_type tags region])

/-- Embedding of `tag_s3_bucket` (lines 142-176): read existing tags
(`NoSuchTagSet` means empty), merge the new tags in (new values win), write the
union back. -/
def tag_s3_bucket (aws : Aws) (bucket_name : String) (tags : Tags) (region : String) :
    Except String Unit × List TagCall :=
  match aws.s3GetBucketTagging bucket_name with
  | .tagSet existing_tags =>
      let merged := dictUpdate existing_tags tags
      (aws.s3PutBucketTagging bucket_name merged,
       [.s3GetBucketTagging bucket_name region,
        .s3PutBucketTagging bucket_name merged region])
  | .noSuchTagSet =>
      let merged := dictUpdate [] tags
      (aws.s3PutBucketTagging bucket_name merged,
       [.s3GetBucketTagging bucket_name region,
        .s3PutBucketTagging bucket_name merged region])
  | .otherError msg =>
      (.error msg, [.s3GetBucketTagging bucket_name region])

/-- Embedding of `tag_rds_resource` (lines 179-197). -/
def tag_rds_resource (aws : Aws) (resource_arn : String) (tags : Tags)
    (region : String) : Except String Unit × List TagCall :=
  (aws.rdsAddTagsToResource resource_arn,
   [.rdsAddTagsToResource resource_arn tags region])

/-- Embedding of `tag_lambda_function` (lines 200-223): a name not starting
with `arn:` is first resolved to its ARN via `get_function`. -/
def tag_lambda_function (aws : Aws) (function_name : String) (tags : Tags)
    (region : String) : Except String Unit × List TagCall :=
  if ¬ pyStartsWith function_name "arn:" then
    match aws.lambdaGetFunction function_name with
    | .error msg => (.error msg, [.lambdaGetFunction function_name region])
    | .ok function_arn =>
        (aws.lambdaTagResource function_arn,
         [.lambdaGetFunction function_name region,
          .lambdaTagResource function_arn tags region])
  else
    (aws.lambdaTagResource function_name,
     [.lambdaTagResource function_name tags region])

/-- Embedding of `tag_dynamodb_table` (lines 226-248): `describe_table` to get
the ARN, then `tag_resource`. -/
def tag_dynamodb_table (aws : Aws) (table_name : String) (tags : Tags)
    (region : String) : Except String Unit × List TagCall :=
  match aws.dynamodbDescribeTable table_name with
  | .error msg => (.error msg, [.dynamodbDescribeTable table_name region])
  | .ok table_arn =>
      (aws.dynamodbTagResource table_arn,
       [.dynamodbDescribeTable table_name region,
        .dynamodbTagResource table_arn tags region])

/-
Dispatcher (`process_event`, lines 251-379) and its configuration.
-/

/-- The `CONFIG` dict (lines 29-36); `excluded_services` comes from the
`EXCLUDED_SERVICES` environment variable, the default tags are fixed. -/
structure Config where
  excluded_services : List String
  default_tags : Tags
deriving DecidableEq

/-- `CONFIG` under the default environment:
`EXCLUDED_SERVICES = "cloudtrail,logs"`. -/
def defaultConfig : Config :=
  { excluded_services := ["cloudtrail", "logs"]
    default_tags := [("AutoTagged", "true"), ("ManagedBy", "AutoTagger")] }

/-- `detail.get('eventName', '')`. -/
def eventNameOf (event : Event) : String :=
  (event.detail.getD Detail.empty).eventName.getD ""

/-- `detail.get('eventSource', '')`. -/
def eventSourceOf (event : Event) : String :=
  (event.detail.getD Detail.empty).eventSource.getD ""

/-- `event_source.split('.')[0] if '.' in event_source else event_source`
(line 267). -/
def serviceOf (event_source : String) : String :=
  if pyContains event_source '.' then (pySplit event_source '.').headD ""
  else event_source

/-- `detail.get('awsRegion', os.environ.get('AWS_REGION', 'us-east-1'))`
(line 264); `env_aws_region` is the `AWS_REGION` environment variable. -/
def regionOf (env_aws_region : Option String) (d : Detail) : String :=
  d.awsRegion.getD (env_aws_region.getD "us-east-1")

/-- The per-invocation result dict: exactly one of the three dict shapes the
source returns (lines 270, 366-371, 373-379). -/
inductive DispatchResult
  | skipped (reason : String)
  | success (tagged_resources : List String) (tags_applied : Tags)
      (event_name event_source : String)
  | error (error : String) (event_name event_source : String)
deriving DecidableEq

/-- The `'status'` entry of the result dict. -/
def DispatchResult.status : DispatchResult → String
  | .skipped _ => "skipped"
  | .success _ _ _ _ => "success"
  | .error _ _ _ => "error"

/-- The `for instance in instances` loop of the `RunInstances` branch
(lines 287-291): tag each instance in order; a raised error propagates at once,
ending the loop. -/
def tagInstances (aws : Aws) (tags : Tags) (region : String) :
    List Ec2Instance → Except String (List String) × List TagCall
  | [] => (.ok [], [])
  | inst :: rest =>
    match truthyStr inst.instanceId with
    | none => tagInstances aws tags region rest
    | some instance_id =>
      match tag_ec2_resource aws instance_id "instance" tags region with
      | (.ok _, calls) =>
          match tagInstances aws tags region rest with
          | (.ok tagged, calls2) =>
              (.ok (("ec2:instance:" ++ instance_id) :: tagged), calls ++ calls2)
          | (.error e, calls2) => (.error e, calls ++ calls2)
      | (.error e, calls) => (.error e, calls)

/-- Wraps one applicator call as a branch outcome: on success the single
tagged-resource label, on a raised error the propagated error. -/
def runSingle (r : Except String Unit × List TagCall) (tagged : String) :
    Except String (List String) × List TagCall :=
  match r with
  | (.ok _, calls) => (.ok [tagged], calls)
  | (.error e, calls) => (.error e, calls)

/-- The `try` block of `process_event` (lines 281-362): the sequential
per-family conditional chain.  `.ok` carries `tagged_resources`; `.error`
models the exception caught at line 364. -/
def dispatchBranch (aws : Aws) (detail : Detail) (all_tags : Tags)
    (event_name event_source aws_region : String) :
    Except String (List String) × List TagCall :=
  if event_source = "ec2.amazonaws.com" ∧ event_name = "RunInstances" then
    let response_elements := detail.responseElements.getD ResponseElements.empty
    if response_elements.isTruthy then
      tagInstances aws all_tags aws_region
        ((response_elements.instancesSet.getD InstancesSet.empty).items.getD [])
    else (.ok [], [])
  else if event_source = "ec2.amazonaws.com" ∧ event_name = "CreateVolume" then
    let response_elements := detail.responseElements.getD ResponseElements.empty
    match truthyStr response_elements.volumeId with
    | some volume_id =>
        runSingle (tag_ec2_resource aws volume_id "volume" all_tags aws_region)
          ("ec2:volume:" ++ volume_id)
    | none => (.ok [], [])
  else if event_source = "ec2.amazonaws.com" ∧ event_name = "CreateSecurityGroup" then
    let response_elements := detail.responseElements.getD ResponseElements.empty
    match truthyStr response_elements.groupId with
    | some group_id =>
        runSingle (tag_ec2_resource aws group_id "security-group" all_tags aws_region)
          ("ec2:security-group:" ++ group_id)
    | none => (.ok [], [])
  else if event_source = "s3.amazonaws.com" ∧ event_name = "CreateBucket" then
    let request_parameters := detail.requestParameters.getD RequestParameters.empty
    match truthyStr request_parameters.bucketName with
    | some bucket_name =>
        runSingle (tag_s3_bucket aws bucket_name all_tags aws_region)
          ("s3:bucket:" ++ bucket_name)
    | none => (.ok [], [])
  else if event_source = "rds.amazonaws.com" ∧
      (event_name = "CreateDBInstance" ∨ event_name = "CreateDBCluster") then
    let response_elements := detail.responseElements.getD ResponseElements.empty
    if event_name = "CreateDBInstance" then
      match truthyStr response_elements.dBInstanceArn with
      | some db_instance =>
          runSingle (tag_rds_resource aws db_instance all_tags aws_region)
            ("rds:instance:" ++ db_instance)
      | none => (.ok [], [])
    else
      match truthyStr response_elements.dBClusterArn with
      | some db_cluster =>
          runSingle (tag_rds_resource aws db_cluster all_tags aws_region)
            ("rds:cluster:" ++ db_cluster)
      | none => (.ok [], [])
  else if event_source = "lambda.amazonaws.com" ∧ event_name = "CreateFunction20150331" then
    let response_elements := detail.responseElements.getD ResponseElements.empty
    match truthyStr response_elements.functionName with
    | some function_name =>
        runSingle (tag_lambda_function aws function_name all_tags aws_region)
          ("lambda:function:" ++ function_name)
    | none => (.ok [], [])
  else if event_source = "dynamodb.amazonaws.com" ∧ event_name = "CreateTable" then
    let response_elements := detail.responseElements.getD ResponseElements.empty
    match truthyStr
        ((response_elements.tableDescription.getD TableDescription.empty).tableName) with
    | some table_name =>
        runSingle (tag_dynamodb_table aws table_name all_tags aws_region)
          ("dynamodb:table:" ++ table_name)
    | none => (.ok [], [])
  else if event_source = "ec2.amazonaws.com" ∧ event_name = "CreateVpc" then
    let response_elements := detail.responseElements.getD ResponseElements.empty
    match truthyStr ((response_elements.vpc.getD Vpc.empty).vpcId) with
    | some vpc_id =>
        runSingle (tag_ec2_resource aws vpc_id "vpc" all_tags aws_region)
          ("ec2:vpc:" ++ vpc_id)
    | none => (.ok [], [])
  else if event_source = "ec2.amazonaws.com" ∧ event_name = "CreateSubnet" then
    let response_elements := detail.responseElements.getD ResponseElements.empty
    match truthyStr ((response_elements.subnet.getD Subnet.empty).subnetId) with
    | some subnet_id =>
        runSingle (tag_ec2_resource aws subnet_id "subnet" all_tags aws_region)
          ("ec2:subnet:" ++ subnet_id)
    | none => (.ok [], [])
  else (.ok [], [])

/-- Embedding of `process_event` (lines 251-379).  Returns the result dict and
the trace of attempted AWS tagging-path calls. -/
def process_event (cfg : Config) (aws : Aws) (env_aws_region : Option String)
    (now : String) (event : Event) : DispatchResult × List TagCall :=
  let detail := event.detail.getD Detail.empty
  let event_name := eventNameOf event
  let event_source := eventSourceOf event
  let aws_region := regionOf env_aws_region detail
  if serviceOf event_source ∈ cfg.excluded_services then
    (.skipped "excluded_service", [])
  else
    let user_tags := (get_user_identity now event).toTags
    let all_tags := dictUpdate cfg.default_tags user_tags
    match dispatchBranch aws detail all_tags event_name event_source aws_region with
    | (.ok tagged_resources, calls) =>
        (.success tagged_resources all_tags event_name event_source, calls)
    | (.error e, calls) => (.error e event_name event_source, calls)

/-- Tags computed for every non-excluded event (lines 272-276):
`{**CONFIG['default_tags'], **user_tags}`. -/
def computeAllTags (cfg : Config) (now : String) (event : Event) : Tags :=
  dictUpdate cfg.default_tags (get_user_identity now event).toTags

/-
Concrete fixtures used by witnesses and counterexamples.
-/

/-- An AWS world where every call succeeds. -/
def awsAllOk : Aws :=
  { ec2CreateTags := fun _ => .ok ()
    s3GetBucketTagging := fun _ => .noSuchTagSet
    s3PutBucketTagging := fun _ _ => .ok ()
    rdsAddTagsToResource := fun _ => .ok ()
    lambdaGetFunction := fun name =>
      .ok ("arn:aws:lambda:us-east-1:123456789012:function:" ++ name)
    lambdaTagResource := fun _ => .ok ()
    dynamodbDescribeTable := fun name =>
      .ok ("arn:aws:dynamodb:us-east-1:123456789012:table/" ++ name)
    dynamodbTagResource := fun _ => .ok () }

/-- The IAM-user identity of the source's local test event (lines 429-434). -/
def uiTest : UserIdentity :=
  { type := some "IAMUser"
    arn := some "arn:aws:iam::123456789012:user/test.user"
    accountId := some "123456789012"
    userName := some "test.user"
    sessionContext := none }

/-- The source's local test event (lines 424-444): `RunInstances` with one
instance. -/
def dTest : Detail :=
  { eventName := some "RunInstances"
    eventSource := some "ec2.amazonaws.com"
    awsRegion := some "us-east-1"
    eventTime := some "2024-12-25T10:30:00Z"
    userIdentity := some uiTest
    requestParameters := none
    responseElements := some { ResponseElements.empty with
      instancesSet := some ⟨some [⟨some "i-1234567890abcdef0"⟩]⟩ } }

/-- The tag dict the dispatcher computes for `dTest`. -/
def tagsTest : Tags :=
  [("AutoTagged", "true"), ("ManagedBy", "AutoTagger"),
   ("CreatedBy", "arn:aws:iam::123456789012:user/test.user"),
   ("CreatedByUser", "test.user"), ("CreatedByType", "IAMUser"),
   ("CreatedByAccountId", "123456789012"),
   ("CreatedAt", "2024-12-25T10:30:00Z")]

/-- `detail.userIdentity` as read by `get_user_identity` (via the defaulted
`detail`). -/
def userIdentityOf (event : Event) : Option UserIdentity :=
  (event.detail.getD Detail.empty).userIdentity

/-- `detail.eventTime` as read by `get_user_identity`. -/
def eventTimeOf (event : Event) : Option String :=
  (event.detail.getD Detail.empty).eventTime

/-- `userIdentity.sessionContext.sessionIssuer.userName` as read by
`get_user_identity` for an assumed role. -/
def issuerNameOf (event : Event) : Option String :=
  (((userIdentityOf event).getD UserIdentity.empty).sessionContext.bind
    SessionContext.sessionIssuer).bind SessionIssuer.userName

/-- The `(eventSource, eventName)` pairs with a branch in the conditional
chain of `process_event` (lines 283-362): the routing table. -/
def routedPair (event_source event_name : String) : Prop :=
  (event_source = "ec2.amazonaws.com" ∧ event_name = "RunInstances") ∨
  (event_source = "ec2.amazonaws.com" ∧ event_name = "CreateVolume") ∨
  (event_source = "ec2.amazonaws.com" ∧ event_name = "CreateSecurityGroup") ∨
  (event_source = "s3.amazonaws.com" ∧ event_name = "CreateBucket") ∨
  (event_source = "rds.amazonaws.com" ∧
    (event_name = "CreateDBInstance" ∨ event_name = "CreateDBCluster")) ∨
  (event_source = "lambda.amazonaws.com" ∧ event_name = "CreateFunction20150331") ∨
  (event_source = "dynamodb.amazonaws.com" ∧ event_name = "CreateTable") ∨
  (event_source = "ec2.amazonaws.com" ∧ event_name = "CreateVpc") ∨
  (event_source = "ec2.amazonaws.com" ∧ event_name = "CreateSubnet")

instance (event_source event_name : String) :
    Decidable (routedPair event_source event_name) := by
  unfold routedPair
  infer_instance

/-
Further fixtures for witnesses and counterexamples.
-/

/-- An event from the excluded audit-trail service. -/
def dCloudtrail : Detail :=
  { Detail.empty with
      eventName := some "StartLogging"
      eventSource := some "cloudtrail.amazonaws.com" }

/-- An event whose `(eventSource, eventName)` pair has no routing branch. -/
def dNoMatch : Detail :=
  { Detail.empty with
      eventName := some "DescribeInstances"
      eventSource := some "foo.amazonaws.com"
      eventTime := some "2024-12-25T10:30:00Z"
      userIdentity := some uiTest }

/-- A `RunInstances` event yielding three instances. -/
def dThree : Detail :=
  { dTest with responseElements := some { ResponseElements.empty with
      instancesSet := some ⟨some [⟨some "i-1"⟩, ⟨some "i-2"⟩, ⟨some "i-3"⟩]⟩ } }

/-- The test event with its `eventTime` removed. -/
def dNoTime : Detail := { dTest with eventTime := none }

/-- An AWS world where tagging instance `i-2` is rejected and everything else
succeeds. -/
def awsFailI2 : Aws :=
  { awsAllOk with ec2CreateTags := fun id =>
      if id = "i-2" then .error "AccessDenied" else .ok () }

/-- An assumed-role identity whose session-issuer user name is the empty
string (present but falsy in Python). -/
def uiEmptyIssuer : UserIdentity :=
  { type := some "AssumedRole"
    arn := some "arn:aws:sts::123456789012:assumed-role/MyRole/MySession"
    accountId := some "123456789012"
    userName := none
    sessionContext := some ⟨some ⟨some ""⟩⟩ }

def evEmptyIssuer : Event := ⟨some { Detail.empty with userIdentity := some uiEmptyIssuer }⟩

/-- An assumed-role identity with a non-empty session-issuer user name. -/
def uiRole : UserIdentity :=
  { uiEmptyIssuer with sessionContext := some ⟨some ⟨some "deployer"⟩⟩ }

def evRole : Event := ⟨some { Detail.empty with userIdentity := some uiRole }⟩

/-- An AWS world where `demo-bucket` has no tags yet and every other bucket
already carries `Env=prod`. -/
def awsS3Demo : Aws :=
  { awsAllOk with s3GetBucketTagging := fun b =>
      if b = "demo-bucket" then .noSuchTagSet else .tagSet [("Env", "prod")] }

/-- An AWS world where the Lambda `get_function` lookup fails. -/
def awsLambdaBroken : Aws :=
  { awsAllOk with lambdaGetFunction := fun _ => .error "Function not found" }

/-- A `CreateFunction20150331` event carrying a short (non-ARN) function
name. -/
def dLambda : Detail :=
  { Detail.empty with
      eventName := some "CreateFunction20150331"
      eventSource := some "lambda.amazonaws.com"
      awsRegion := some "us-east-1"
      eventTime := some "2024-12-25T10:30:00Z"
      userIdentity := some uiTest
      responseElements := some { ResponseElements.empty with
        functionName := some "my-func" } }

/-
Theorems.  First the dictionary laws, then unfolding and scenario lemmas for
the dispatcher, then the claims.
-/

theorem dlookup_append (k : String) (l₁ l₂ : Tags) :
    dlookup k (l₁ ++ l₂) = (dlookup k l₁).or (dlookup k l₂) := by
  induction l₁ with
  | nil => simp [dlookup]
  | cons p t ih =>
    obtain ⟨k', v⟩ := p
    by_cases h : k = k' <;> simp [dlookup, h, ih]

theorem dlookup_map_upd (k : String) (a b : Tags) :
    dlookup k (a.map (fun p => (p.1, (dlookup p.1 b).getD p.2))) =
      (dlookup k a).map (fun v => (dlookup k b).getD v) := by
  induction a with
  | nil => simp [dlookup]
  | cons p t ih =>
    obtain ⟨k', v⟩ := p
    by_cases h : k = k' <;> simp [dlookup, h, ih]

theorem dlookup_filter_of_none (k : String) (a b : Tags) (h : dlookup k a = none) :
    dlookup k (b.filter (fun q => (dlookup q.1 a).isNone)) = dlookup k b := by
  induction b with
  | nil => simp
  | cons q t ih =>
    obtain ⟨k', w⟩ := q
    by_cases hk : k = k'
    · subst hk
      simp [List.filter, h, dlookup]
    · by_cases hp : (dlookup k' a).isNone <;>
        simp [List.filter, hp, dlookup, hk, ih]

theorem dlookup_filter_of_some (k : String) (a b : Tags) (h : (dlookup k a).isSome) :
    dlookup k (b.filter (fun q => (dlookup q.1 a).isNone)) = none := by
  induction b with
  | nil => simp [dlookup]
  | cons q t ih =>
    obtain ⟨k', w⟩ := q
    by_cases hk : k = k'
    · subst hk
      have : ¬ (dlookup k a).isNone := by
        simp [Option.isNone_iff_eq_none]
        intro hn
        rw [hn] at h
        simp at h
      simp [List.filter, this, ih]
    · by_cases hp : (dlookup k' a).isNone <;>
        simp [List.filter, hp, dlookup, hk, ih]

/-- The fundamental law of `dictUpdate`: lookup prefers the right (new) dict and
falls back to the left (existing) dict. -/
theorem dlookup_dictUpdate (k : String) (a b : Tags) :
    dlookup k (dictUpdate a b) = (dlookup k b).or (dlookup k a) := by
  unfold dictUpdate
  rw [dlookup_append, dlookup_map_upd]
  cases ha : dlookup k a with
  | none =>
    rw [dlookup_filter_of_none k a b ha]
    cases dlookup k b <;> simp
  | some v =>
    rw [dlookup_filter_of_some k a b (by simp [ha])]
    cases dlookup k b <;> simp

/-- Updating the empty dict with `b` gives back exactly `b`. -/
theorem dictUpdate_nil_left (b : Tags) : dictUpdate [] b = b := by
  unfold dictUpdate
  simp [dlookup]

/-- Sanity check: the embedding reproduces the source's own local test run
(a successful single-instance dispatch). -/
theorem process_event_test_event :
    process_event defaultConfig awsAllOk none "2099-01-01T00:00:00Z" ⟨some dTest⟩ =
      (.success ["ec2:instance:i-1234567890abcdef0"] tagsTest
        "RunInstances" "ec2.amazonaws.com",
       [.ec2CreateTags "i-1234567890abcdef0" "instance" tagsTest "us-east-1"]) := by
  rfl

/-- Unfolding of the dispatcher into its exclusion guard and branch chain. -/
theorem process_event_unfolded (cfg : Config) (aws : Aws) (env : Option String)
    (now : String) (event : Event) :
    process_event cfg aws env now event =
      if serviceOf (eventSourceOf event) ∈ cfg.excluded_services then
        (.skipped "excluded_service", [])
      else
        match dispatchBranch aws (event.detail.getD Detail.empty)
            (computeAllTags cfg now event) (eventNameOf event) (eventSourceOf event)
            (regionOf env (event.detail.getD Detail.empty)) with
        | (.ok tagged_resources, calls) =>
            (.success tagged_resources (computeAllTags cfg now event)
              (eventNameOf event) (eventSourceOf event), calls)
        | (.error e, calls) =>
            (.error e (eventNameOf event) (eventSourceOf event), calls) := rfl

/-- An unrouted `(eventSource, eventName)` pair makes the branch chain a
no-op. -/
theorem dispatchBranch_no_match (aws : Aws) (detail : Detail) (all_tags : Tags)
    (event_name event_source aws_region : String)
    (h : ¬ routedPair event_source event_name) :
    dispatchBranch aws detail all_tags event_name event_source aws_region =
      (.ok [], []) := by
  unfold routedPair at h
  have h1 := fun hc => h (Or.inl hc)
  have h2 := fun hc => h (Or.inr (Or.inl hc))
  have h3 := fun hc => h (Or.inr (Or.inr (Or.inl hc)))
  have h4 := fun hc => h (Or.inr (Or.inr (Or.inr (Or.inl hc))))
  have h5 := fun hc => h (Or.inr (Or.inr (Or.inr (Or.inr (Or.inl hc)))))
  have h6 := fun hc => h (Or.inr (Or.inr (Or.inr (Or.inr (Or.inr (Or.inl hc))))))
  have h7 := fun hc =>
    h (Or.inr (Or.inr (Or.inr (Or.inr (Or.inr (Or.inr (Or.inl hc)))))))
  have h8 := fun hc =>
    h (Or.inr (Or.inr (Or.inr (Or.inr (Or.inr (Or.inr (Or.inr (Or.inl hc))))))))
  have h9 := fun hc =>
    h (Or.inr (Or.inr (Or.inr (Or.inr (Or.inr (Or.inr (Or.inr (Or.inr hc))))))))
  unfold dispatchBranch
  rw [if_neg h1, if_neg h2, if_neg h3, if_neg h4, if_neg h5, if_neg h6, if_neg h7,
    if_neg h8, if_neg h9]

/-- The `RunInstances` branch of the chain. -/
theorem dispatchBranch_runInstances (aws : Aws) (detail : Detail) (all_tags : Tags)
    (aws_region : String) :
    dispatchBranch aws detail all_tags "RunInstances" "ec2.amazonaws.com" aws_region =
      if (detail.responseElements.getD ResponseElements.empty).isTruthy then
        tagInstances aws all_tags aws_region
          (((detail.responseElements.getD ResponseElements.empty).instancesSet.getD
            InstancesSet.empty).items.getD [])
      else (.ok [], []) := rfl

/-- The `CreateFunction20150331` branch of the chain. -/
theorem dispatchBranch_lambda (aws : Aws) (detail : Detail) (all_tags : Tags)
    (aws_region : String) :
    dispatchBranch aws detail all_tags "CreateFunction20150331" "lambda.amazonaws.com"
        aws_region =
      match truthyStr ((detail.responseElements.getD ResponseElements.empty).functionName) with
      | some function_name =>
          runSingle (tag_lambda_function aws function_name all_tags aws_region)
            ("lambda:function:" ++ function_name)
      | none => (.ok [], []) := rfl

/-- Tagging a run of instances whose ids all succeed, then one whose tagging
call raises, propagates that error at once: instances after the failing one
are never attempted, and the trace holds exactly the calls made so far. -/
theorem tagInstances_fail_mid (aws : Aws) (tags : Tags) (region : String)
    (preIds : List String) (badId : String) (post : List Ec2Instance) (msg : String)
    (hok : ∀ id ∈ preIds, aws.ec2CreateTags id = .ok ())
    (hpre : ∀ id ∈ preIds, id ≠ "")
    (hbad : aws.ec2CreateTags badId = .error msg)
    (hbadne : badId ≠ "") :
    tagInstances aws tags region
        (preIds.map (fun id => ⟨some id⟩) ++ (⟨some badId⟩ : Ec2Instance) :: post) =
      (.error msg,
       preIds.map (fun id => .ec2CreateTags id "instance" tags region) ++
         [.ec2CreateTags badId "instance" tags region]) := by
  induction preIds with
  | nil =>
    simp only [List.map_nil, List.nil_append]
    simp [tagInstances, truthyStr, hbadne, tag_ec2_resource, hbad]
  | cons id t ih =>
    have hid : aws.ec2CreateTags id = .ok () := hok id (by simp)
    have hidne : id ≠ "" := hpre id (by simp)
    have iht := ih (fun j hj => hok j (by simp [hj])) (fun j hj => hpre j (by simp [hj]))
    simp only [List.map_cons, List.cons_append]
    simp [tagInstances, truthyStr, hidne, tag_ec2_resource, hid, iht]

/-- Identity extraction reads the wall clock only as the fallback for a
missing `eventTime`. -/
theorem get_user_identity_no_clock (now1 now2 : String) (event : Event)
    (h : (eventTimeOf event).isSome) :
    get_user_identity now1 event = get_user_identity now2 event := by
  obtain ⟨t, ht⟩ := Option.isSome_iff_exists.mp h
  unfold eventTimeOf at ht
  simp [get_user_identity, ht]

/-- A `RunInstances` dispatch in which one instance's tagging call raises after
a run of successes: the whole dispatch aborts with that error. -/
theorem process_event_runInstances_partial_fail (cfg : Config) (aws : Aws)
    (env : Option String) (now : String) (d : Detail) (re : ResponseElements)
    (preIds : List String) (badId : String) (post : List Ec2Instance) (msg : String)
    (hsrc : d.eventSource = some "ec2.amazonaws.com")
    (hname : d.eventName = some "RunInstances")
    (hre : d.responseElements = some re)
    (hitems : re.instancesSet =
      some ⟨some (preIds.map (fun id => ⟨some id⟩) ++ (⟨some badId⟩ : Ec2Instance) :: post)⟩)
    (hex : "ec2" ∉ cfg.excluded_services)
    (hok : ∀ id ∈ preIds, aws.ec2CreateTags id = .ok ())
    (hpre : ∀ id ∈ preIds, id ≠ "")
    (hbad : aws.ec2CreateTags badId = .error msg)
    (hbadne : badId ≠ "") :
    process_event cfg aws env now ⟨some d⟩ =
      (.error msg "RunInstances" "ec2.amazonaws.com",
       preIds.map (fun id =>
         .ec2CreateTags id "instance" (computeAllTags cfg now ⟨some d⟩) (regionOf env d)) ++
         [.ec2CreateTags badId "instance" (computeAllTags cfg now ⟨some d⟩) (regionOf env d)]) := by
  have hsource : eventSourceOf ⟨some d⟩ = "ec2.amazonaws.com" := by
    simp [eventSourceOf, hsrc]
  have hnameE : eventNameOf ⟨some d⟩ = "RunInstances" := by
    simp [eventNameOf, hname]
  have hserv : serviceOf "ec2.amazonaws.com" = "ec2" := by decide
  have hdet : (Event.mk (some d)).detail.getD Detail.empty = d := rfl
  have htruthy : re.isTruthy = true := by
    simp [ResponseElements.isTruthy, hitems]
  rw [process_event_unfolded, hsource, hnameE, hserv, if_neg hex, hdet,
    dispatchBranch_runInstances, hre]
  simp only [Option.getD_some, htruthy, if_true, hitems]
  rw [tagInstances_fail_mid aws _ _ preIds badId post msg hok hpre hbad hbadne]

/-- C3: for every event whose service token (the part of `eventSource` before
the first `.`) is in the configured excluded-service set, the dispatch returns
status `skipped` immediately — no identity extraction is observable in the
result, no tags are computed into it, and no AWS tagging-path call is made
(empty trace), regardless of `eventName`. -/
theorem claim_C3_excluded_service (cfg : Config) (aws : Aws) (env : Option String)
    (now : String) (event : Event)
    (h : serviceOf (eventSourceOf event) ∈ cfg.excluded_services) :
    process_event cfg aws env now event = (.skipped "excluded_service", []) := by
  rw [process_event_unfolded, if_pos h]

/-- Witness for C3: a `cloudtrail.amazonaws.com` event is skipped with no
calls under the default configuration (excluded set `cloudtrail, logs`). -/
theorem claim_C3_witness :
    serviceOf (eventSourceOf ⟨some dCloudtrail⟩) ∈ defaultConfig.excluded_services ∧
    process_event defaultConfig awsAllOk none "2024-12-25T10:30:00Z" ⟨some dCloudtrail⟩ =
      (.skipped "excluded_service", []) :=
  ⟨by decide,
   claim_C3_excluded_service defaultConfig awsAllOk none "2024-12-25T10:30:00Z"
     ⟨some dCloudtrail⟩ (by decide)⟩

/-- C4: the bucket applicator is read-merge-write.  (1) When the bucket already
has tags, the applicator reads them first and writes back the union with the
new tags winning on key collision; (2) applying the identical tags twice leaves
the same final tag collection as applying them once; (3) the `NoSuchTagSet`
not-found condition is treated as an empty existing set, and writing onto it
yields exactly the computed new tags. -/
theorem claim_C4_read_merge_write :
    (∀ (aws : Aws) (bucket : String) (tags : Tags) (region : String) (existing : Tags),
      aws.s3GetBucketTagging bucket = .tagSet existing →
      tag_s3_bucket aws bucket tags region =
        (aws.s3PutBucketTagging bucket (dictUpdate existing tags),
         [.s3GetBucketTagging bucket region,
          .s3PutBucketTagging bucket (dictUpdate existing tags) region]) ∧
      ∀ k, dlookup k (dictUpdate existing tags) =
        (dlookup k tags).or (dlookup k existing)) ∧
    (∀ (existing tags : Tags) (k : String),
      dlookup k (dictUpdate (dictUpdate existing tags) tags) =
        dlookup k (dictUpdate existing tags)) ∧
    (∀ (aws : Aws) (bucket : String) (tags : Tags) (region : String),
      aws.s3GetBucketTagging bucket = .noSuchTagSet →
      tag_s3_bucket aws bucket tags region =
        (aws.s3PutBucketTagging bucket tags,
         [.s3GetBucketTagging bucket region,
          .s3PutBucketTagging bucket tags region])) := by
  refine ⟨?_, ?_, ?_⟩
  · intro aws bucket tags region existing h
    constructor
    · unfold tag_s3_bucket
      rw [h]
    · intro k
      exact dlookup_dictUpdate k existing tags
  · intro existing tags k
    rw [dlookup_dictUpdate, dlookup_dictUpdate]
    cases dlookup k tags <;> simp
  · intro aws bucket tags region h
    unfold tag_s3_bucket
    rw [h, dictUpdate_nil_left]

/-- Witness for C4: a bucket carrying `Env=prod` ends with the union, and the
untagged `demo-bucket` ends with exactly the new tags. -/
theorem claim_C4_witness :
    tag_s3_bucket awsS3Demo "other-bucket" [("CreatedBy", "alice")] "us-east-1" =
      (.ok (), [.s3GetBucketTagging "other-bucket" "us-east-1",
        .s3PutBucketTagging "other-bucket"
          [("Env", "prod"), ("CreatedBy", "alice")] "us-east-1"]) ∧
    tag_s3_bucket awsS3Demo "demo-bucket" [("CreatedBy", "alice")] "us-east-1" =
      (.ok (), [.s3GetBucketTagging "demo-bucket" "us-east-1",
        .s3PutBucketTagging "demo-bucket" [("CreatedBy", "alice")] "us-east-1"]) := by
  constructor
  · have h := (claim_C4_read_merge_write.1 awsS3Demo "other-bucket"
      [("CreatedBy", "alice")] "us-east-1" [("Env", "prod")] (by decide)).1
    exact h.trans (by rfl)
  · have h := claim_C4_read_merge_write.2.2 awsS3Demo "demo-bucket"
      [("CreatedBy", "alice")] "us-east-1" (by decide)
    exact h.trans (by rfl)

/-- C7: the applied tag set overlays the static defaults with the
identity-derived tags, identity values winning on key collision; it always
contains the creator ARN, display name, principal type, account id and
creation timestamp; and every successful dispatch reports exactly this
composed tag set. -/
theorem claim_C7_tag_composition :
    (∀ (cfg : Config) (now : String) (event : Event) (k : String),
      dlookup k (computeAllTags cfg now event) =
        (dlookup k (get_user_identity now event).toTags).or
          (dlookup k cfg.default_tags)) ∧
    (∀ (cfg : Config) (now : String) (event : Event),
      dlookup "CreatedBy" (computeAllTags cfg now event) =
        some (get_user_identity now event).CreatedBy ∧
      dlookup "CreatedByUser" (computeAllTags cfg now event) =
        some (get_user_identity now event).CreatedByUser ∧
      dlookup "CreatedByType" (computeAllTags cfg now event) =
        some (get_user_identity now event).CreatedByType ∧
      dlookup "CreatedByAccountId" (computeAllTags cfg now event) =
        some (get_user_identity now event).CreatedByAccountId ∧
      dlookup "CreatedAt" (computeAllTags cfg now event) =
        some (get_user_identity now event).CreatedAt) ∧
    (∀ (cfg : Config) (aws : Aws) (env : Option String) (now : String) (event : Event)
        (tagged_resources : List String) (tags_applied : Tags)
        (event_name event_source : String) (calls : List TagCall),
      process_event cfg aws env now event =
        (.success tagged_resources tags_applied event_name event_source, calls) →
      tags_applied = computeAllTags cfg now event) := by
  refine ⟨?_, ?_, ?_⟩
  · intro cfg now event k
    exact dlookup_dictUpdate k cfg.default_tags (get_user_identity now event).toTags
  · intro cfg now event
    refine ⟨?_, ?_, ?_, ?_, ?_⟩ <;>
      rw [computeAllTags, dlookup_dictUpdate] <;>
      simp [IdentityInfo.toTags, dlookup]
  · intro cfg aws env now event tagged_resources tags_applied event_name event_source
      calls h
    rw [process_event_unfolded] at h
    by_cases hex : serviceOf (eventSourceOf event) ∈ cfg.excluded_services
    · rw [if_pos hex] at h
      simp at h
    · rw [if_neg hex] at h
      rcases hbr : dispatchBranch aws (event.detail.getD Detail.empty)
          (computeAllTags cfg now event) (eventNameOf event) (eventSourceOf event)
          (regionOf env (event.detail.getD Detail.empty)) with ⟨r, calls'⟩
      rw [hbr] at h
      cases r with
      | ok tr =>
        simp only [Prod.mk.injEq, DispatchResult.success.injEq] at h
        exact h.1.2.1.symm
      | error e => simp at h

/-- Witness for C7: the source's own test event dispatches successfully and
its reported tags are the composed tag set. -/
theorem claim_C7_witness :
    tagsTest = computeAllTags defaultConfig "2099-01-01T00:00:00Z" ⟨some dTest⟩ :=
  claim_C7_tag_composition.2.2 defaultConfig awsAllOk none "2099-01-01T00:00:00Z"
    ⟨some dTest⟩ ["ec2:instance:i-1234567890abcdef0"] tagsTest
    "RunInstances" "ec2.amazonaws.com"
    [.ec2CreateTags "i-1234567890abcdef0" "instance" tagsTest "us-east-1"] (by rfl)

/-- C5 counterexample: on an event with no `detail` at all, identity extraction
succeeds but the creation-timestamp field is filled with the dispatch-time
wall clock, not with the string "unknown". -/
theorem claim_C5_counterexample :
    (get_user_identity "2024-12-25T10:30:00Z" ⟨none⟩).CreatedAt ≠ "unknown" := by
  decide

/-- C5 (amended): identity extraction is total (it is a Lean function over any
event value) and each missing identity field — principal ARN, principal type,
display name, account id — defaults to the string "unknown"; the creation
timestamp instead defaults to the current wall-clock time `now` when
`eventTime` is absent. -/
theorem claim_C5_identity_defaults (now : String) (event : Event) :
    ((userIdentityOf event).bind UserIdentity.arn = none →
      (get_user_identity now event).CreatedBy = "unknown") ∧
    ((userIdentityOf event).bind UserIdentity.type = none →
      (get_user_identity now event).CreatedByType = "unknown" ∧
      (get_user_identity now event).CreatedByUser = "unknown") ∧
    ((userIdentityOf event).bind UserIdentity.accountId = none →
      (get_user_identity now event).CreatedByAccountId = "unknown") ∧
    (eventTimeOf event = none → (get_user_identity now event).CreatedAt = now) := by
  obtain ⟨od⟩ := event
  cases od with
  | none =>
    refine ⟨?_, ?_, ?_, ?_⟩ <;> intro h <;>
      simp [get_user_identity, Detail.empty, UserIdentity.empty]
  | some d =>
    cases hui : d.userIdentity with
    | none =>
      refine ⟨?_, ?_, ?_, ?_⟩ <;> intro h <;>
        simp_all [get_user_identity, userIdentityOf, eventTimeOf, hui,
          UserIdentity.empty]
    | some ui =>
      refine ⟨?_, ?_, ?_, ?_⟩ <;> intro h <;>
        simp_all [get_user_identity, userIdentityOf, eventTimeOf, hui]

/-- Witness for C5: the defaults on the fully-absent event. -/
theorem claim_C5_witness :
    (get_user_identity "2024-12-25T10:30:00Z" ⟨none⟩).CreatedBy = "unknown" ∧
    (get_user_identity "2024-12-25T10:30:00Z" ⟨none⟩).CreatedByType = "unknown" ∧
    (get_user_identity "2024-12-25T10:30:00Z" ⟨none⟩).CreatedByUser = "unknown" ∧
    (get_user_identity "2024-12-25T10:30:00Z" ⟨none⟩).CreatedByAccountId = "unknown" ∧
    (get_user_identity "2024-12-25T10:30:00Z" ⟨none⟩).CreatedAt =
      "2024-12-25T10:30:00Z" :=
  have h := claim_C5_identity_defaults "2024-12-25T10:30:00Z" ⟨none⟩
  ⟨h.1 (by decide), (h.2.1 (by decide)).1, (h.2.1 (by decide)).2,
   h.2.2.1 (by decide), h.2.2.2 (by decide)⟩

/-- C6 counterexample: for an assumed-role event whose session-issuer user
name is present but equal to the empty string, the code does not use that
present name; it falls back to the last `/`-segment of the principal ARN. -/
theorem claim_C6_counterexample :
    issuerNameOf evEmptyIssuer = some "" ∧
    (get_user_identity "2024-12-25T10:30:00Z" evEmptyIssuer).CreatedByUser =
      "MySession" := by
  decide

/-- C6 (amended): the creator display name follows the ordered resolution
rule, with the session-issuer user name used only when present AND non-empty:
IAMUser takes the embedded user name (defaulted to "unknown" when absent);
AssumedRole takes the session-issuer user name when present and non-empty,
else the last `/`-segment of the principal ARN; Root is the literal "root";
any other type gives "unknown" while the type itself is recorded as-is. -/
theorem claim_C6_name_resolution (now : String) (event : Event) :
    (((userIdentityOf event).getD UserIdentity.empty).type = some "IAMUser" →
      (get_user_identity now event).CreatedByUser =
        ((userIdentityOf event).getD UserIdentity.empty).userName.getD "unknown") ∧
    (((userIdentityOf event).getD UserIdentity.empty).type = some "AssumedRole" →
      (∀ s, issuerNameOf event = some s → s ≠ "" →
        (get_user_identity now event).CreatedByUser = s) ∧
      ((issuerNameOf event = none ∨ issuerNameOf event = some "") →
        (get_user_identity now event).CreatedByUser =
          lastArnSegment
            (((userIdentityOf event).getD UserIdentity.empty).arn.getD "unknown"))) ∧
    (((userIdentityOf event).getD UserIdentity.empty).type = some "Root" →
      (get_user_identity now event).CreatedByUser = "root") ∧
    ((((userIdentityOf event).getD UserIdentity.empty).type ≠ some "IAMUser" ∧
      ((userIdentityOf event).getD UserIdentity.empty).type ≠ some "AssumedRole" ∧
      ((userIdentityOf event).getD UserIdentity.empty).type ≠ some "Root") →
      (get_user_identity now event).CreatedByUser = "unknown" ∧
      (get_user_identity now event).CreatedByType =
        ((userIdentityOf event).getD UserIdentity.empty).type.getD "unknown") := by
  refine ⟨?_, ?_, ?_, ?_⟩
  · intro h
    simp [get_user_identity, userIdentityOf] at h ⊢
    simp [h]
  · intro h
    constructor
    · intro s hs hne
      unfold issuerNameOf userIdentityOf at hs
      simp [get_user_identity, userIdentityOf] at h ⊢
      simp [h, hs, truthyStr, hne]
    · intro hor
      simp [get_user_identity, userIdentityOf] at h ⊢
      cases hor with
      | inl hn =>
        unfold issuerNameOf userIdentityOf at hn
        simp [h, hn, truthyStr]
      | inr he =>
        unfold issuerNameOf userIdentityOf at he
        simp [h, he, truthyStr]
  · intro h
    simp [get_user_identity, userIdentityOf] at h ⊢
    simp [h]
  · intro h
    obtain ⟨h1, h2, h3⟩ := h
    simp [get_user_identity, userIdentityOf] at h1 h2 h3 ⊢
    simp [h1, h2, h3]

/-- Witness for C6: an IAM user resolves to the embedded user name; an
assumed role with a non-empty session-issuer name resolves to it. -/
theorem claim_C6_witness :
    (get_user_identity "2024-12-25T10:30:00Z" ⟨some dTest⟩).CreatedByUser =
      "test.user" ∧
    (get_user_identity "2024-12-25T10:30:00Z" evRole).CreatedByUser = "deployer" := by
  constructor
  · have h := (claim_C6_name_resolution "2024-12-25T10:30:00Z" ⟨some dTest⟩).1
      (by decide)
    exact h.trans (by rfl)
  · have h := ((claim_C6_name_resolution "2024-12-25T10:30:00Z" evRole).2.1
      (by decide)).1 "deployer" (by decide) (by decide)
    exact h

/-- C8 counterexample: dispatching the identical event value twice, with the
identical external responses, at two different wall-clock instants yields two
different results when the event carries no `eventTime`: the `CreatedAt` tag
differs between the runs. -/
theorem claim_C8_counterexample :
    (process_event defaultConfig awsAllOk none "2024-01-01T00:00:00Z"
        ⟨some dNoTime⟩).1 ≠
    (process_event defaultConfig awsAllOk none "2025-01-01T00:00:00Z"
        ⟨some dNoTime⟩).1 := by
  decide

/-- C8 (amended): dispatch is deterministic in the event value and the
external responses: for every event that carries an `eventTime`, two runs at
different wall-clock instants return identical results (same resources, same
tags, same calls).  Only a missing `eventTime` lets the wall clock into the
result, via the `CreatedAt` tag. -/
theorem claim_C8_two_run_determinism (cfg : Config) (aws : Aws)
    (env : Option String) (event : Event) (now1 now2 : String)
    (h : (eventTimeOf event).isSome) :
    process_event cfg aws env now1 event = process_event cfg aws env now2 event := by
  have hid := get_user_identity_no_clock now1 now2 event h
  unfold process_event
  rw [hid]

/-- Witness for C8: the test event (which has an `eventTime`) dispatches
identically at two different instants. -/
theorem claim_C8_witness :
    process_event defaultConfig awsAllOk none "2024-01-01T00:00:00Z" ⟨some dTest⟩ =
    process_event defaultConfig awsAllOk none "2025-01-01T00:00:00Z" ⟨some dTest⟩ :=
  claim_C8_two_run_determinism defaultConfig awsAllOk none ⟨some dTest⟩
    "2024-01-01T00:00:00Z" "2025-01-01T00:00:00Z" (by decide)

/-- C2 counterexample: an event with no routing entry is not reported as
`skipped` at all (so in particular not as `skipped` with reason "no-match");
the dispatcher returns a `success` result with an empty resource list. -/
theorem claim_C2_counterexample :
    (process_event defaultConfig awsAllOk none "2024-12-25T10:30:00Z"
        ⟨some dNoMatch⟩).1.status ≠ "skipped" ∧
    (process_event defaultConfig awsAllOk none "2024-12-25T10:30:00Z"
        ⟨some dNoMatch⟩).1 ≠ DispatchResult.skipped "no-match" ∧
    (process_event defaultConfig awsAllOk none "2024-12-25T10:30:00Z"
        ⟨some dNoMatch⟩).1.status = "success" := by
  decide

/-- C2 (amended): for every non-excluded event whose `(eventSource, eventName)`
pair has no routing entry, no Tag Applicator is invoked (empty call trace) and
the dispatch returns status `success` with an empty `tagged_resources` list —
there is no `skipped`/"no-match" outcome in the code; likewise a routed
`RunInstances` event with no response elements (zero resources) returns the
same empty `success`, not `skipped`/"no-resources". -/
theorem claim_C2_no_match_empty_success :
    (∀ (cfg : Config) (aws : Aws) (env : Option String) (now : String) (event : Event),
      serviceOf (eventSourceOf event) ∉ cfg.excluded_services →
      ¬ routedPair (eventSourceOf event) (eventNameOf event) →
      process_event cfg aws env now event =
        (.success [] (computeAllTags cfg now event) (eventNameOf event)
          (eventSourceOf event), [])) ∧
    (∀ (cfg : Config) (aws : Aws) (env : Option String) (now : String) (d : Detail),
      d.eventSource = some "ec2.amazonaws.com" →
      d.eventName = some "RunInstances" →
      d.responseElements = none →
      "ec2" ∉ cfg.excluded_services →
      process_event cfg aws env now ⟨some d⟩ =
        (.success [] (computeAllTags cfg now ⟨some d⟩) "RunInstances"
          "ec2.amazonaws.com", [])) := by
  constructor
  · intro cfg aws env now event hex hroute
    rw [process_event_unfolded, if_neg hex,
      dispatchBranch_no_match aws (event.detail.getD Detail.empty)
        (computeAllTags cfg now event) (eventNameOf event) (eventSourceOf event)
        (regionOf env (event.detail.getD Detail.empty)) hroute]
  · intro cfg aws env now d hsrc hname hre hex
    have hsource : eventSourceOf ⟨some d⟩ = "ec2.amazonaws.com" := by
      simp [eventSourceOf, hsrc]
    have hnameE : eventNameOf ⟨some d⟩ = "RunInstances" := by
      simp [eventNameOf, hname]
    have hserv : serviceOf "ec2.amazonaws.com" = "ec2" := by decide
    have hdet : (Event.mk (some d)).detail.getD Detail.empty = d := rfl
    rw [process_event_unfolded, hsource, hnameE, hserv, if_neg hex, hdet,
      dispatchBranch_runInstances, hre]
    simp [ResponseElements.isTruthy, ResponseElements.empty]

/-- Witness for C2: the unrouted `foo.amazonaws.com`/`DescribeInstances` event
dispatches to an empty `success` with no calls. -/
theorem claim_C2_witness :
    process_event defaultConfig awsAllOk none "2024-12-25T10:30:00Z"
        ⟨some dNoMatch⟩ =
      (.success [] tagsTest "DescribeInstances" "foo.amazonaws.com", []) := by
  have h := claim_C2_no_match_empty_success.1 defaultConfig awsAllOk none
    "2024-12-25T10:30:00Z" ⟨some dNoMatch⟩ (by decide) (by decide)
  exact h.trans (by rfl)

/-- C1 counterexample: a `RunInstances` event yielding three instances, with
the second instance's tagging call rejected, does NOT attempt the third
instance and does NOT aggregate per-resource outcomes under a `success`
status: the dispatch aborts with status `error` and the trace stops at the
failing call. -/
theorem claim_C1_counterexample :
    process_event defaultConfig awsFailI2 none "2099-01-01T00:00:00Z"
        ⟨some dThree⟩ =
      (.error "AccessDenied" "RunInstances" "ec2.amazonaws.com",
       [.ec2CreateTags "i-1" "instance" tagsTest "us-east-1",
        .ec2CreateTags "i-2" "instance" tagsTest "us-east-1"]) ∧
    (process_event defaultConfig awsFailI2 none "2099-01-01T00:00:00Z"
        ⟨some dThree⟩).1.status ≠ "success" ∧
    TagCall.ec2CreateTags "i-3" "instance" tagsTest "us-east-1" ∉
      (process_event defaultConfig awsFailI2 none "2099-01-01T00:00:00Z"
        ⟨some dThree⟩).2 := by
  decide

/-- C1 (amended): a failure of the tag-application call for one resource in a
multi-resource dispatch short-circuits instead of being collected: sibling
resources after the failing one are never attempted (the trace holds exactly
the calls up to and including the failing one) and the dispatch-level status
is `error`, with no per-resource outcome list. -/
theorem claim_C1_failure_short_circuits (cfg : Config) (aws : Aws)
    (env : Option String) (now : String) (d : Detail) (re : ResponseElements)
    (preIds : List String) (badId : String) (post : List Ec2Instance) (msg : String)
    (hsrc : d.eventSource = some "ec2.amazonaws.com")
    (hname : d.eventName = some "RunInstances")
    (hre : d.responseElements = some re)
    (hitems : re.instancesSet =
      some ⟨some (preIds.map (fun id => ⟨some id⟩) ++
        (⟨some badId⟩ : Ec2Instance) :: post)⟩)
    (hex : "ec2" ∉ cfg.excluded_services)
    (hok : ∀ id ∈ preIds, aws.ec2CreateTags id = .ok ())
    (hpre : ∀ id ∈ preIds, id ≠ "")
    (hbad : aws.ec2CreateTags badId = .error msg)
    (hbadne : badId ≠ "") :
    (process_event cfg aws env now ⟨some d⟩).1.status = "error" ∧
    (process_event cfg aws env now ⟨some d⟩).2.length = preIds.length + 1 := by
  have hp := process_event_runInstances_partial_fail cfg aws env now d re preIds
    badId post msg hsrc hname hre hitems hex hok hpre hbad hbadne
  rw [hp]
  simp [DispatchResult.status]

/-- Witness for C1 (amended): with three instances and `i-2` rejected, the
dispatch status is `error` and exactly two calls were attempted. -/
theorem claim_C1_witness :
    (process_event defaultConfig awsFailI2 none "2099-01-01T00:00:00Z"
        ⟨some dThree⟩).1.status = "error" ∧
    (process_event defaultConfig awsFailI2 none "2099-01-01T00:00:00Z"
        ⟨some dThree⟩).2.length = 2 := by
  have h := claim_C1_failure_short_circuits defaultConfig awsFailI2 none
    "2099-01-01T00:00:00Z" dThree
    { ResponseElements.empty with
        instancesSet := some ⟨some [⟨some "i-1"⟩, ⟨some "i-2"⟩, ⟨some "i-3"⟩]⟩ }
    ["i-1"] "i-2" [⟨some "i-3"⟩] "AccessDenied" rfl rfl rfl rfl (by decide)
    (by intro id hid; rw [List.mem_singleton] at hid; subst hid; rfl)
    (by intro id hid; rw [List.mem_singleton] at hid; subst hid; decide)
    rfl (by decide)
  exact ⟨h.1, by simpa using h.2⟩

/-- C10: when a tagging call raises partway through a multi-resource dispatch,
the dispatch returns an error result carrying only the status, the error
string, the event name and the event source; the resources tagged before the
failure stay tagged (their calls remain in the trace, nothing is rolled back)
but the error result does not mention them. -/
theorem claim_C10_error_hides_partial_tags (cfg : Config) (aws : Aws)
    (env : Option String) (now : String) (d : Detail) (re : ResponseElements)
    (preIds : List String) (badId : String) (post : List Ec2Instance) (msg : String)
    (hsrc : d.eventSource = some "ec2.amazonaws.com")
    (hname : d.eventName = some "RunInstances")
    (hre : d.responseElements = some re)
    (hitems : re.instancesSet =
      some ⟨some (preIds.map (fun id => ⟨some id⟩) ++
        (⟨some badId⟩ : Ec2Instance) :: post)⟩)
    (hex : "ec2" ∉ cfg.excluded_services)
    (hok : ∀ id ∈ preIds, aws.ec2CreateTags id = .ok ())
    (hpre : ∀ id ∈ preIds, id ≠ "")
    (hbad : aws.ec2CreateTags badId = .error msg)
    (hbadne : badId ≠ "") :
    process_event cfg aws env now ⟨some d⟩ =
      (.error msg "RunInstances" "ec2.amazonaws.com",
       preIds.map (fun id =>
         .ec2CreateTags id "instance" (computeAllTags cfg now ⟨some d⟩)
           (regionOf env d)) ++
         [.ec2CreateTags badId "instance" (computeAllTags cfg now ⟨some d⟩)
           (regionOf env d)]) :=
  process_event_runInstances_partial_fail cfg aws env now d re preIds badId post
    msg hsrc hname hre hitems hex hok hpre hbad hbadne

/-- Witness for C10: the concrete three-instance dispatch with `i-2` rejected
returns the bare error result while the trace retains the successful `i-1`
call. -/
theorem claim_C10_witness :
    process_event defaultConfig awsFailI2 none "2024-12-25T10:30:00Z"
        ⟨some dThree⟩ =
      (.error "AccessDenied" "RunInstances" "ec2.amazonaws.com",
       [.ec2CreateTags "i-1" "instance" tagsTest "us-east-1",
        .ec2CreateTags "i-2" "instance" tagsTest "us-east-1"]) := by
  have h := claim_C10_error_hides_partial_tags defaultConfig awsFailI2 none
    "2024-12-25T10:30:00Z" dThree
    { ResponseElements.empty with
        instancesSet := some ⟨some [⟨some "i-1"⟩, ⟨some "i-2"⟩, ⟨some "i-3"⟩]⟩ }
    ["i-1"] "i-2" [⟨some "i-3"⟩] "AccessDenied" rfl rfl rfl rfl (by decide)
    (by intro id hid; rw [List.mem_singleton] at hid; subst hid; rfl)
    (by intro id hid; rw [List.mem_singleton] at hid; subst hid; decide)
    rfl (by decide)
  exact h.trans (by rfl)

/-- C9: the managed-function applicator resolves a short (non-`arn:`-prefixed)
name through `get_function` before tagging; a resolution failure surfaces
with its own error message and no tagging call in the trace, while a tagging
failure surfaces with the tagging call's message after a successful lookup —
and a resolution failure propagates to the dispatch result as that error. -/
theorem claim_C9_short_name_resolution :
    (∀ (aws : Aws) (name : String) (tags : Tags) (region msg : String),
      pyStartsWith name "arn:" = false →
      aws.lambdaGetFunction name = .error msg →
      tag_lambda_function aws name tags region =
        (.error msg, [.lambdaGetFunction name region])) ∧
    (∀ (aws : Aws) (name arn : String) (tags : Tags) (region msg : String),
      pyStartsWith name "arn:" = false →
      aws.lambdaGetFunction name = .ok arn →
      aws.lambdaTagResource arn = .error msg →
      tag_lambda_function aws name tags region =
        (.error msg, [.lambdaGetFunction name region,
          .lambdaTagResource arn tags region])) ∧
    (∀ (aws : Aws) (name arn : String) (tags : Tags) (region : String),
      pyStartsWith name "arn:" = false →
      aws.lambdaGetFunction name = .ok arn →
      tag_lambda_function aws name tags region =
        (aws.lambdaTagResource arn, [.lambdaGetFunction name region,
          .lambdaTagResource arn tags region])) ∧
    (∀ (cfg : Config) (aws : Aws) (env : Option String) (now : String)
        (d : Detail) (re : ResponseElements) (fn msg : String),
      d.eventSource = some "lambda.amazonaws.com" →
      d.eventName = some "CreateFunction20150331" →
      d.responseElements = some re →
      re.functionName = some fn →
      fn ≠ "" →
      pyStartsWith fn "arn:" = false →
      aws.lambdaGetFunction fn = .error msg →
      "lambda" ∉ cfg.excluded_services →
      process_event cfg aws env now ⟨some d⟩ =
        (.error msg "CreateFunction20150331" "lambda.amazonaws.com",
         [.lambdaGetFunction fn (regionOf env d)])) := by
  refine ⟨?_, ?_, ?_, ?_⟩
  · intro aws name tags region msg h hlook
    unfold tag_lambda_function
    rw [if_pos (by simp [h]), hlook]
  · intro aws name arn tags region msg h hlook htag
    unfold tag_lambda_function
    rw [if_pos (by simp [h]), hlook]
    simp [htag]
  · intro aws name arn tags region h hlook
    unfold tag_lambda_function
    rw [if_pos (by simp [h]), hlook]
  · intro cfg aws env now d re fn msg hsrc hname hre hfn hfne hnotarn hlook hex
    have hsource : eventSourceOf ⟨some d⟩ = "lambda.amazonaws.com" := by
      simp [eventSourceOf, hsrc]
    have hnameE : eventNameOf ⟨some d⟩ = "CreateFunction20150331" := by
      simp [eventNameOf, hname]
    have hserv : serviceOf "lambda.amazonaws.com" = "lambda" := by decide
    have hdet : (Event.mk (some d)).detail.getD Detail.empty = d := rfl
    rw [process_event_unfolded, hsource, hnameE, hserv, if_neg hex, hdet,
      dispatchBranch_lambda, hre]
    simp only [Option.getD_some, hfn]
    simp [truthyStr, hfne, tag_lambda_function, hnotarn, hlook, runSingle]

/-- Witness for C9: the short name `my-func` with a failing lookup gives the
lookup's own error and no tagging call, both at the applicator and at the
dispatch level. -/
theorem claim_C9_witness :
    tag_lambda_function awsLambdaBroken "my-func" tagsTest "us-east-1" =
      (.error "Function not found", [.lambdaGetFunction "my-func" "us-east-1"]) ∧
    process_event defaultConfig awsLambdaBroken none "2099-01-01T00:00:00Z"
        ⟨some dLambda⟩ =
      (.error "Function not found" "CreateFunction20150331" "lambda.amazonaws.com",
       [.lambdaGetFunction "my-func" "us-east-1"]) := by
  constructor
  · exact claim_C9_short_name_resolution.1 awsLambdaBroken "my-func" tagsTest
      "us-east-1" "Function not found" (by decide) rfl
  · have h := claim_C9_short_name_resolution.2.2.2 defaultConfig awsLambdaBroken
      none "2099-01-01T00:00:00Z" dLambda
      { ResponseElements.empty with functionName := some "my-func" }
      "my-func" "Function not found" rfl rfl rfl rfl (by decide) (by decide) rfl
      (by decide)
    exact h.trans (by rfl)

end AutoTagger
